import Mathlib

/-!
Shallow embedding of the mini-ocpp repository (central_system.py,
charger_point.py) for checking the natural-language specification.

Python dicts are modelled as insertion-ordered association lists; `dictSet`
updates an existing key in place and appends a missing one at the end,
`dictPop` removes the entry for a key and returns its value, matching
CPython dict semantics. Raising Python exceptions is modelled explicitly:
a function that can raise returns its state at the moment of the raise
together with an `Option PyErr` (or an `Except PyErr` result), since the
callers in the source either swallow the exception (central side,
process_message) or let it escape the listener loop (point side).
-/

/-- Python exception classes that the embedded code paths can raise. -/
inductive PyErr where
  | keyError
  | typeError
  | valueError
  | unboundLocal
  deriving Repr, DecidableEq

/-- Lookup in a Python dict modelled as an association list: value of the
first entry with the given key. -/
def dictGet {β : Type} (d : List (String × β)) (k : String) : Option β :=
  match d with
  | [] => none
  | (k', v) :: rest => if k' = k then some v else dictGet rest k

/-- Membership test of a Python dict (the `in` operator for string keys). -/
def dictContains {β : Type} (d : List (String × β)) (k : String) : Bool :=
  (dictGet d k).isSome

/-- Assignment `d[k] = v` on a Python dict: updates the entry in place when
the key is present, appends at the end when it is absent. -/
def dictSet {β : Type} (d : List (String × β)) (k : String) (v : β) :
    List (String × β) :=
  match d with
  | [] => [(k, v)]
  | (k', v') :: rest =>
      if k' = k then (k, v) :: rest else (k', v') :: dictSet rest k v

/-- Removal `d.pop(k)` / `del d[k]` on a Python dict: returns the removed
value (when present) and the dict without that entry. -/
def dictPop {β : Type} (d : List (String × β)) (k : String) :
    Option β × List (String × β) :=
  match d with
  | [] => (none, [])
  | (k', v) :: rest =>
      if k' = k then (some v, rest)
      else
        let r := dictPop rest k
        (r.1, (k', v) :: r.2)

/-- Modelled from the spec: message_types.py (the MessageType enum) is not in
the repository snapshot; section 6 of the spec fixes the wire tags as
Call = 2, CallResult = 3, CallError = 4, and the repository tests use the
literal tag 2 for a Call frame. -/
def MessageType.CALL : Nat := 2

/-- Modelled from the spec: wire tag of a CallResult frame (see
MessageType.CALL). -/
def MessageType.CALL_RESULT : Nat := 3

/-- Modelled from the spec: wire tag of a CallError frame (see
MessageType.CALL). -/
def MessageType.CALL_ERROR : Nat := 4

/-! ## Charging point side (charger_point.py) -/

/-- A JSON-ish payload field value as the point-side handlers can see it:
a string, an integer, or a list of strings (the `key` list of a
GetConfiguration request). -/
inductive PVal where
  | pstr : String → PVal
  | pint : Int → PVal
  | plist : List String → PVal
  deriving Repr, DecidableEq

/-- The payload dict of an inbound Call on the point side; only the fields
the handlers read are modelled (`key` and `value`), each possibly absent. -/
structure PCallPayload where
  key : Option PVal := none
  value : Option PVal := none
  deriving Repr, DecidableEq

/-- The payload dict of an inbound CallResult on the point side; the only
field a handler reads is `interval` (BootNotification reply). -/
structure PResultPayload where
  interval : Option Int := none
  deriving Repr, DecidableEq

/-- Mutable state of a ChargingPoint instance: the configuration store
`self.config` and the sent-calls correlation dict `self.__sent_calls`
(message id to action name). -/
structure PointState where
  config : List (String × Int)
  sentCalls : List (String × String)
  deriving Repr, DecidableEq

/-- The configuration store as initialised in ChargingPoint.__init__ and the
empty sent-calls dict. -/
def initPoint : PointState :=
  { config := [("HeartbeatInterval", 30)], sentCalls := [] }

/-- An entry of the `configurationKey` list in a GetConfiguration reply. -/
structure KnownKey where
  key : String
  readonly : Bool
  value : Int
  deriving Repr, DecidableEq

/-- Reply payloads the point side produces. -/
inductive PResp where
  | getConf (configurationKey : List KnownKey) (unknownKey : List String)
  | status (s : String)
  deriving Repr, DecidableEq

/-- A reply frame `[message_type, message_id, response_payload]` built by a
point-side handler. -/
structure PSentFrame where
  msgType : Nat
  messageId : String
  payload : PResp
  deriving Repr, DecidableEq

/-- Python iteration `for key in x` over a payload field: a list yields its
elements, a string yields its characters as one-character strings, an
integer (and the absent case, iterating None) raises TypeError. -/
def pyIter : Option PVal → Except PyErr (List String)
  | some (.plist l) => .ok l
  | some (.pstr s) => .ok (s.toList.map (fun c => String.mk [c]))
  | some (.pint _) => .error .typeError
  | none => .error .typeError

/-- Python string-to-int parsing used by int(value): optional surrounding
spaces, optional sign, then a nonempty run of decimal digits (digit-group
underscores are not modelled). -/
def digitsVal (cs : List Char) : Option Nat :=
  if cs.isEmpty then none
  else
    cs.foldl
      (fun acc c =>
        match acc with
        | none => none
        | some n => if c.isDigit then some (n * 10 + (c.toNat - 48)) else none)
      (some 0)

/-- Character class of the whitespace int() strips. -/
def isPySpace (c : Char) : Bool :=
  c == ' ' || c == '\t' || c == '\n' || c == '\r'

/-- Parse a Python int literal from a string, none when int() would raise
ValueError. -/
def pyIntOfString (s : String) : Option Int :=
  let cs := ((s.toList.dropWhile isPySpace).reverse.dropWhile isPySpace).reverse
  match cs with
  | '-' :: rest => (digitsVal rest).map (fun n => -(n : Int))
  | '+' :: rest => (digitsVal rest).map (fun n => (n : Int))
  | _ => (digitsVal cs).map (fun n => (n : Int))

/-- The int(value) coercion in process_change_configuration: an int passes
through, a string is parsed (ValueError on failure), a list raises
TypeError. -/
def pyInt : PVal → Except PyErr Int
  | .pint n => .ok n
  | .pstr s =>
      match pyIntOfString s with
      | some n => .ok n
      | none => .error .valueError
  | .plist _ => .error .typeError

/-- The partition loop of process_get_configuration: walk the requested keys
in order, collecting known keys (with readonly False and the stored value)
and unknown keys. -/
def partitionKeys (config : List (String × Int)) : List String →
    List KnownKey × List String
  | [] => ([], [])
  | k :: rest =>
      let r := partitionKeys config rest
      match dictGet config k with
      | some v => (⟨k, false, v⟩ :: r.1, r.2)
      | none => (r.1, k :: r.2)

/-- ChargingPoint.process_get_configuration: validate, then partition
payload["key"] into configurationKey/unknownKey and reply with a CallResult
frame; on validation failure reply with a CallError frame carrying status
Rejected. Never mutates state. Iterating a missing or non-iterable `key`
raises. -/
def processGetConfiguration (validate : PCallPayload → Bool)
    (messageId : String) (payload : PCallPayload) (st : PointState) :
    Except PyErr PSentFrame :=
  if validate payload then
    match pyIter payload.key with
    | .error e => .error e
    | .ok ks =>
        let r := partitionKeys st.config ks
        .ok ⟨MessageType.CALL_RESULT, messageId, .getConf r.1 r.2⟩
  else
    .ok ⟨MessageType.CALL_ERROR, messageId, .status "Rejected"⟩

/-- ChargingPoint.process_change_configuration: validator called first, then
payload["key"] is read (KeyError when absent). A key present in the store
with a passing validation updates the entry to int(value) and replies
Accepted as a CallResult; otherwise the reply is a CallError with status
Rejected. A list-valued key is unhashable, so the `in` test raises
TypeError; an int-valued key is simply not contained. -/
def processChangeConfiguration (validate : PCallPayload → Bool)
    (messageId : String) (payload : PCallPayload) (st : PointState) :
    PointState × Except PyErr PSentFrame :=
  let isValid := validate payload
  match payload.key with
  | none => (st, .error .keyError)
  | some (.plist _) => (st, .error .typeError)
  | some (.pint _) =>
      (st, .ok ⟨MessageType.CALL_ERROR, messageId, .status "Rejected"⟩)
  | some (.pstr k) =>
      if dictContains st.config k && isValid then
        match payload.value with
        | none => (st, .error .keyError)
        | some v =>
            match pyInt v with
            | .error e => (st, .error e)
            | .ok n =>
                ({ st with config := dictSet st.config k n },
                  .ok ⟨MessageType.CALL_RESULT, messageId, .status "Accepted"⟩)
      else
        (st, .ok ⟨MessageType.CALL_ERROR, messageId, .status "Rejected"⟩)

/-- ChargingPoint.process_call_message: dispatch on the action string; an
unsupported action only logs a warning, leaving the local variable
`response` unbound, so the final json.dumps(response) raises
UnboundLocalError. -/
def pointProcessCallMessage (validateGet validateChange : PCallPayload → Bool)
    (messageId action : String) (payload : PCallPayload) (st : PointState) :
    PointState × Except PyErr PSentFrame :=
  if action = "GetConfiguration" then
    (st, processGetConfiguration validateGet messageId payload st)
  else if action = "ChangeConfiguration" then
    processChangeConfiguration validateChange messageId payload st
  else
    (st, .error .unboundLocal)

/-- ChargingPoint.process_boot_notification (reply handler): store
payload["interval"] under HeartbeatInterval; a missing interval raises
KeyError. -/
def pointProcessBootNotification (payload : PResultPayload) (st : PointState) :
    PointState × Option PyErr :=
  match payload.interval with
  | none => (st, some .keyError)
  | some v =>
      ({ st with config := dictSet st.config "HeartbeatInterval" v }, none)

/-- ChargingPoint.process_call_result_message: the guard subscripts
self.__sent_calls with the message id, so an unregistered id raises KeyError
(the log-and-return branch is reachable only for a falsy stored action);
a registered truthy action is removed and dispatched. -/
def pointProcessCallResultMessage (messageId : String)
    (payload : PResultPayload) (st : PointState) : PointState × Option PyErr :=
  match dictGet st.sentCalls messageId with
  | none => (st, some .keyError)
  | some action =>
      if action ≠ "" then
        let st1 := { st with sentCalls := (dictPop st.sentCalls messageId).2 }
        if action = "BootNotification" then
          pointProcessBootNotification payload st1
        else
          (st1, none)
      else
        (st, none)

/-- An inbound frame as the point side sees it after json.loads: the leading
tag 2/3/4 selects the constructor. -/
inductive PInMsg where
  | call (messageId action : String) (payload : PCallPayload)
  | callResult (messageId : String) (payload : PResultPayload)
  | callError (messageId : String) (payload : PResultPayload)
  deriving Repr, DecidableEq

/-- ChargingPoint.handle_message: tag 2 goes to the call dispatcher (whose
reply, if any, the listener loop sends back), tag 3 to the call-result
handler, and anything else — including a CallError frame, tag 4 — only logs
an error and returns None. -/
def handleMessage (validateGet validateChange : PCallPayload → Bool)
    (msg : PInMsg) (st : PointState) :
    PointState × Except PyErr (Option PSentFrame) :=
  match msg with
  | .call messageId action payload =>
      let r := pointProcessCallMessage validateGet validateChange
        messageId action payload st
      (r.1, r.2.map some)
  | .callResult messageId payload =>
      let r := pointProcessCallResultMessage messageId payload st
      (r.1, match r.2 with | none => .ok none | some e => .error e)
  | .callError _ _ => (st, .ok none)

/-- One step of the point state under an inbound message (the state
component of handle_message, whether it returned or raised). -/
def pointStep (validateGet validateChange : PCallPayload → Bool)
    (st : PointState) (msg : PInMsg) : PointState :=
  (handleMessage validateGet validateChange msg st).1

/-- ChargingPoint.send_boot_notification, state effect: after sending the
frame, the fresh message id is registered in the sent-calls dict under the
action BootNotification. -/
def sendBootNotification (messageId : String) (st : PointState) : PointState :=
  { st with sentCalls := dictSet st.sentCalls messageId "BootNotification" }

/-- ChargingPoint.send_heartbeat, state effect: after sending the frame, the
fresh message id is registered in the sent-calls dict under the action
Heartbeat. -/
def sendHeartbeat (messageId : String) (st : PointState) : PointState :=
  { st with sentCalls := dictSet st.sentCalls messageId "Heartbeat" }

/-- An operation on a ChargingPoint's state: receiving an inbound frame in
the listener loop, or sending one of the two outbound calls (which registers
its id in the sent-calls dict, so later CallResult frames can match it). -/
inductive PointEvent where
  | recv (msg : PInMsg)
  | sendBoot (messageId : String)
  | sendHb (messageId : String)
  deriving Repr, DecidableEq

/-- One step of the point state under an operation. -/
def pointEventStep (validateGet validateChange : PCallPayload → Bool)
    (st : PointState) (ev : PointEvent) : PointState :=
  match ev with
  | .recv msg => pointStep validateGet validateChange st msg
  | .sendBoot messageId => sendBootNotification messageId st
  | .sendHb messageId => sendHeartbeat messageId st

/-- The sleep loop of ChargingPoint.heartbeat_task, counting the one-second
sleeps of one cycle: `cfg t` is the value of config["HeartbeatInterval"]
observed at the loop check made after t elapsed seconds (the store can be
mutated concurrently at every await point). Fuel bounds the recursion;
`some n` means the loop exited after n seconds. -/
def sleepLoopSteps (cfg : Nat → Int) : Nat → Nat → Option Nat
  | 0, _ => none
  | fuel + 1, t =>
      if (t : Int) < cfg t then sleepLoopSteps cfg fuel (t + 1) else some t

/-! ## Central system side (central_system.py) -/

/-- The payload dict of an inbound Call as the central handlers read it: the
only field any central handler accesses is chargePointSerialNumber (via
payload.get, hence possibly absent). -/
structure CDict where
  chargePointSerialNumber : Option String := none
  deriving Repr, DecidableEq

/-- Mutable state of a CentralSystem instance: the peer registry
self.connected_charging_points (identity to websocket), the correlation dict
self.pending_requests (message id to future), and
self.default_heartbeat_interval. Websockets and futures are identified by
numbers. -/
structure CentralState where
  connectedChargingPoints : List (String × Nat)
  pendingRequests : List (String × Nat)
  defaultHeartbeatInterval : Int
  deriving Repr, DecidableEq

/-- The BootNotification reply payload built by the central side. -/
structure BootResponse where
  status : String
  currentTime : String
  interval : Int
  deriving Repr, DecidableEq

/-- Reply payloads the central side produces. -/
inductive CResp where
  | boot (r : BootResponse)
  | heartbeat (currentTime : String)
  deriving Repr, DecidableEq

/-- A reply frame `[message_type, message_id, response_payload]` built by a
central-side handler. -/
structure CFrame where
  msgType : Nat
  messageId : String
  payload : CResp
  deriving Repr, DecidableEq

/-- CentralSystem.process_boot_notification: on a passing validation the
self-reported serial number, when truthy (present and nonempty), is upserted
into the peer registry, and an Accepted CallResult is sent on the same
websocket. On a failing validation the logging f-string references the local
charge_point_id, which is only bound in the valid branch, so the else branch
raises UnboundLocalError before any state change or send. -/
def processBootNotification (validate : CDict → Bool) (now : String)
    (ws : Nat) (messageId : String) (payload : CDict) (st : CentralState) :
    CentralState × List (Nat × CFrame) × Option PyErr :=
  if validate payload then
    let st' :=
      match payload.chargePointSerialNumber with
      | some cp =>
          if cp = "" then st
          else { st with
                  connectedChargingPoints :=
                    dictSet st.connectedChargingPoints cp ws }
      | none => st
    let frame : CFrame :=
      ⟨MessageType.CALL_RESULT, messageId,
        .boot ⟨"Accepted", now, st.defaultHeartbeatInterval⟩⟩
    (st', [(ws, frame)], none)
  else
    (st, [], some .unboundLocal)

/-- CentralSystem.process_heartbeat: reply with the current time only; no
state mutation. -/
def processHeartbeat (now : String) (ws : Nat) (messageId : String) :
    List (Nat × CFrame) :=
  [(ws, ⟨MessageType.CALL_RESULT, messageId, .heartbeat now⟩)]

/-- CentralSystem.process_call_message: dispatch on the action string; an
unsupported action only logs a warning and produces nothing. -/
def processCallMessage (validate : CDict → Bool) (now : String) (ws : Nat)
    (messageId action : String) (payload : CDict) (st : CentralState) :
    CentralState × List (Nat × CFrame) × Option PyErr :=
  if action = "BootNotification" then
    processBootNotification validate now ws messageId payload st
  else if action = "Heartbeat" then
    (st, processHeartbeat now ws messageId, none)
  else
    (st, [], none)

/-- CentralSystem.process_call_result_message: the membership guard and
dict.pop are fused into one lookup-and-remove; a registered id is removed
and its future is resolved with the payload, an unregistered id is a no-op.
The returned list holds the (future, payload) resolutions performed. -/
def processCallResultMessage {ρ : Type} (messageId : String) (payload : ρ)
    (st : CentralState) : CentralState × List (Nat × ρ) :=
  match dictPop st.pendingRequests messageId with
  | (some fut, rest) => ({ st with pendingRequests := rest }, [(fut, payload)])
  | (none, _) => (st, [])

/-- An inbound frame as the central side sees it after json.loads; result
payloads are never inspected by the central code, so they stay a type parameter. -/
inductive CInMsg (ρ : Type) where
  | call (messageId action : String) (payload : CDict)
  | callResult (messageId : String) (payload : ρ)
  | callError (messageId : String) (payload : ρ)
  deriving Repr, DecidableEq

/-- CentralSystem.process_message: tag 2 goes to the call dispatcher, tags 3
and 4 both go to process_call_result_message; the whole dispatch runs under
a catch-all except that logs and swallows any exception, so the function
always returns normally with the state as of the raise. -/
def processMessage {ρ : Type} (validate : CDict → Bool) (now : String)
    (ws : Nat) (msg : CInMsg ρ) (st : CentralState) :
    CentralState × List (Nat × CFrame) × List (Nat × ρ) :=
  match msg with
  | .call messageId action payload =>
      let r := processCallMessage validate now ws messageId action payload st
      (r.1, r.2.1, [])
  | .callResult messageId payload =>
      let r := processCallResultMessage messageId payload st
      (r.1, [], r.2)
  | .callError messageId payload =>
      let r := processCallResultMessage messageId payload st
      (r.1, [], r.2)

/-- The first-match scan of CentralSystem.handle_connection's
ConnectionClosed handler: walk the registry in insertion order and delete
the first entry whose stored websocket equals the closed one, then break. -/
def removeFirstByValue (d : List (String × Nat)) (ws : Nat) :
    List (String × Nat) :=
  match d with
  | [] => []
  | (k, v) :: rest =>
      if v = ws then rest else (k, v) :: removeFirstByValue rest ws

/-- CentralSystem.handle_connection, except ConnectionClosed branch: only
the peer registry is touched; pending_requests is not visited at all. -/
def handleConnectionClosed (ws : Nat) (st : CentralState) : CentralState :=
  { st with
      connectedChargingPoints :=
        removeFirstByValue st.connectedChargingPoints ws }

/-! ## Lemmas about the dict model -/

theorem dictGet_eq_none_of_not_mem {β : Type} (d : List (String × β))
    (k : String) (h : k ∉ d.map Prod.fst) : dictGet d k = none := by
  induction d with
  | nil => rfl
  | cons hd tl ih =>
      obtain ⟨k', v⟩ := hd
      simp only [List.map_cons, List.mem_cons, not_or] at h
      simp [dictGet, Ne.symm h.1, ih h.2]

theorem dictContains_iff_mem {β : Type} (d : List (String × β)) (k : String) :
    dictContains d k = true ↔ k ∈ d.map Prod.fst := by
  induction d with
  | nil => simp [dictContains, dictGet]
  | cons hd tl ih =>
      obtain ⟨k', v⟩ := hd
      by_cases h : k' = k
      · simp [dictContains, dictGet, h]
      · simpa [dictContains, dictGet, h, Ne.symm h] using ih

theorem dictGet_dictSet_self {β : Type} (d : List (String × β)) (k : String)
    (v : β) : dictGet (dictSet d k v) k = some v := by
  induction d with
  | nil => simp [dictSet, dictGet]
  | cons hd tl ih =>
      obtain ⟨k', v'⟩ := hd
      by_cases h : k' = k
      · simp [dictSet, dictGet, h]
      · simp [dictSet, dictGet, h, ih]

theorem dictGet_dictSet_ne {β : Type} (d : List (String × β)) (k k' : String)
    (v : β) (h : k' ≠ k) : dictGet (dictSet d k v) k' = dictGet d k' := by
  induction d with
  | nil => simp [dictSet, dictGet, Ne.symm h]
  | cons hd tl ih =>
      obtain ⟨k'', v''⟩ := hd
      by_cases hk : k'' = k
      · subst hk
        simp [dictSet, dictGet, Ne.symm h]
      · simp [dictSet, dictGet, hk, ih]

theorem map_fst_dictSet_of_contains {β : Type} (d : List (String × β))
    (k : String) (v : β) (h : dictContains d k = true) :
    (dictSet d k v).map Prod.fst = d.map Prod.fst := by
  induction d with
  | nil => simp [dictContains, dictGet] at h
  | cons hd tl ih =>
      obtain ⟨k', v'⟩ := hd
      by_cases hk : k' = k
      · simp [dictSet, hk]
      · have h' : dictContains tl k = true := by
          simpa [dictContains, dictGet, hk] using h
        simp [dictSet, hk, ih h']

theorem dictPop_fst {β : Type} (d : List (String × β)) (k : String) :
    (dictPop d k).1 = dictGet d k := by
  induction d with
  | nil => rfl
  | cons hd tl ih =>
      obtain ⟨k', v⟩ := hd
      by_cases h : k' = k
      · simp [dictPop, dictGet, h]
      · simp [dictPop, dictGet, h, ih]

theorem dictGet_dictPop_ne {β : Type} (d : List (String × β)) (k k' : String)
    (h : k' ≠ k) : dictGet (dictPop d k).2 k' = dictGet d k' := by
  induction d with
  | nil => rfl
  | cons hd tl ih =>
      obtain ⟨k'', v⟩ := hd
      by_cases hk : k'' = k
      · subst hk
        simp [dictPop, dictGet, Ne.symm h]
      · simp [dictPop, dictGet, hk, ih]

theorem dictGet_dictPop_self {β : Type} (d : List (String × β)) (k : String)
    (hnd : (d.map Prod.fst).Nodup) : dictGet (dictPop d k).2 k = none := by
  induction d with
  | nil => rfl
  | cons hd tl ih =>
      obtain ⟨k', v⟩ := hd
      simp only [List.map_cons, List.nodup_cons] at hnd
      by_cases h : k' = k
      · subst h
        simp only [dictPop, if_pos rfl]
        exact dictGet_eq_none_of_not_mem tl k' hnd.1
      · simp [dictPop, dictGet, h, ih hnd.2]

/-! ## Lemmas about the registry close scan -/

theorem mem_removeFirstByValue_iff (d : List (String × Nat)) (ws : Nat)
    (k : String) (s : Nat) (h : s ≠ ws) :
    (k, s) ∈ removeFirstByValue d ws ↔ (k, s) ∈ d := by
  induction d with
  | nil => simp [removeFirstByValue]
  | cons hd tl ih =>
      obtain ⟨k', v⟩ := hd
      by_cases hv : v = ws
      · subst hv
        have : (k, s) ≠ (k', v) := by
          intro hh
          exact h (congrArg Prod.snd hh)
        simp [removeFirstByValue, this]
      · simp [removeFirstByValue, hv, ih]

theorem removeFirstByValue_of_countP_zero (d : List (String × Nat)) (ws : Nat)
    (h : d.countP (fun kv => kv.2 == ws) = 0) :
    removeFirstByValue d ws = d := by
  induction d with
  | nil => rfl
  | cons hd tl ih =>
      obtain ⟨k, v⟩ := hd
      simp only [List.countP_cons] at h
      by_cases hv : v = ws
      · simp [hv] at h
      · have h' : tl.countP (fun kv => kv.2 == ws) = 0 := by
          simpa [hv] using h
        simp only [removeFirstByValue, if_neg hv]
        rw [ih h']

theorem countP_removeFirstByValue (d : List (String × Nat)) (ws : Nat)
    (h : 0 < d.countP (fun kv => kv.2 == ws)) :
    (removeFirstByValue d ws).countP (fun kv => kv.2 == ws) =
      d.countP (fun kv => kv.2 == ws) - 1 := by
  induction d with
  | nil => simp at h
  | cons hd tl ih =>
      obtain ⟨k, v⟩ := hd
      by_cases hv : v = ws
      · subst hv
        simp [removeFirstByValue, List.countP_cons]
      · have h' : 0 < tl.countP (fun kv => kv.2 == ws) := by
          simpa [List.countP_cons, hv] using h
        simp [removeFirstByValue, hv, List.countP_cons, ih h']

/-! ## Lemmas about the GetConfiguration partition -/

theorem partitionKeys_eq (config : List (String × Int)) (ks : List String) :
    partitionKeys config ks =
      (ks.filterMap fun k =>
        (dictGet config k).map fun v => ⟨k, false, v⟩,
       ks.filter fun k => !(dictContains config k)) := by
  induction ks with
  | nil => rfl
  | cons k rest ih =>
      cases h : dictGet config k with
      | none =>
          simp [partitionKeys, ih, h, dictContains, List.filterMap_cons,
            List.filter_cons]
      | some v =>
          simp [partitionKeys, ih, h, dictContains, List.filterMap_cons,
            List.filter_cons]

/-! ## Lemma about the heartbeat sleep loop -/

theorem sleepLoopSteps_first_reach (cfg : Nat → Int) :
    ∀ fuel t n, sleepLoopSteps cfg fuel t = some n →
      t ≤ n ∧ ¬((n : Int) < cfg n) ∧ ∀ u, t ≤ u → u < n → (u : Int) < cfg u := by
  intro fuel
  induction fuel with
  | zero => intro t n h; simp [sleepLoopSteps] at h
  | succ fuel ih =>
      intro t n h
      simp only [sleepLoopSteps] at h
      by_cases hc : (t : Int) < cfg t
      · rw [if_pos hc] at h
        obtain ⟨h1, h2, h3⟩ := ih (t + 1) n h
        refine ⟨by omega, h2, ?_⟩
        intro u hu1 hu2
        rcases Nat.eq_or_lt_of_le hu1 with heq | hlt
        · exact heq ▸ hc
        · exact h3 u hlt hu2
      · rw [if_neg hc] at h
        obtain rfl : t = n := by injection h
        exact ⟨le_refl t, hc, fun u hu1 hu2 => absurd hu2 (by omega)⟩

/-! ## Configuration key-set preservation -/

theorem map_fst_config_processChangeConfiguration
    (validate : PCallPayload → Bool) (messageId : String)
    (payload : PCallPayload) (st : PointState) :
    (processChangeConfiguration validate messageId payload st).1.config.map
        Prod.fst = st.config.map Prod.fst := by
  unfold processChangeConfiguration
  cases hk : payload.key with
  | none => rfl
  | some v =>
      cases v with
      | plist l => rfl
      | pint n => rfl
      | pstr k =>
          cases hcond : dictContains st.config k && validate payload with
          | false => simp [hcond]
          | true =>
              cases hv : payload.value with
              | none => simp [hcond, hv]
              | some w =>
                  cases hn : pyInt w with
                  | error e => simp [hcond, hv, hn]
                  | ok n =>
                      have hc : dictContains st.config k = true :=
                        (Bool.and_eq_true _ _).mp hcond |>.1
                      simp [hcond, hv, hn,
                        map_fst_dictSet_of_contains st.config k n hc]

theorem map_fst_config_pointStep (vG vC : PCallPayload → Bool)
    (st : PointState) (msg : PInMsg)
    (h : "HeartbeatInterval" ∈ st.config.map Prod.fst) :
    (pointStep vG vC st msg).config.map Prod.fst = st.config.map Prod.fst := by
  cases msg with
  | call messageId action payload =>
      unfold pointStep handleMessage pointProcessCallMessage
      by_cases h1 : action = "GetConfiguration"
      · simp [h1]
      · by_cases h2 : action = "ChangeConfiguration"
        · simp [h1, h2, map_fst_config_processChangeConfiguration]
        · simp [h1, h2]
  | callResult messageId payload =>
      unfold pointStep handleMessage pointProcessCallResultMessage
      cases hg : dictGet st.sentCalls messageId with
      | none => simp [hg]
      | some action =>
          by_cases ha : action = ""
          · simp [hg, ha]
          · by_cases hb : action = "BootNotification"
            · subst hb
              cases hi : payload.interval with
              | none => simp [hg, ha, pointProcessBootNotification, hi]
              | some v =>
                  have hc : dictContains st.config "HeartbeatInterval" = true :=
                    (dictContains_iff_mem st.config "HeartbeatInterval").mpr h
                  simp [hg, ha, pointProcessBootNotification, hi,
                    map_fst_dictSet_of_contains st.config "HeartbeatInterval" v hc]
            · simp [hg, ha, hb]
  | callError messageId payload => rfl

theorem map_fst_config_pointEventStep (vG vC : PCallPayload → Bool)
    (st : PointState) (ev : PointEvent)
    (h : "HeartbeatInterval" ∈ st.config.map Prod.fst) :
    (pointEventStep vG vC st ev).config.map Prod.fst =
      st.config.map Prod.fst := by
  cases ev with
  | recv msg => exact map_fst_config_pointStep vG vC st msg h
  | sendBoot messageId => rfl
  | sendHb messageId => rfl

/-! ## Claims -/

/-- C1. The claim says processing a CallResult with an unregistered id is a
no-op on both sides and that a duplicate resolution after removal is a
no-op. The central side conforms, but the point side subscripts its
sent-calls dict in the guard, so an unregistered id raises KeyError with the
state unchanged; in particular a second resolution of the same id after the
first one removed the entry raises as well. This theorem evaluates the
point-side handler at those failing inputs: first conjunct, unregistered id
against a fresh point; second conjunct, a normal first resolution; third
conjunct, the duplicate resolution raising KeyError. -/
theorem c1_point_unmatched_result_raises :
    pointProcessCallResultMessage "X" { interval := some 60 } initPoint =
        (initPoint, some PyErr.keyError) ∧
      pointProcessCallResultMessage "B" { interval := some 60 }
          { config := [("HeartbeatInterval", 30)],
            sentCalls := [("B", "BootNotification")] } =
        ({ config := [("HeartbeatInterval", 60)], sentCalls := [] }, none) ∧
      pointProcessCallResultMessage "B" { interval := some 60 }
          { config := [("HeartbeatInterval", 60)], sentCalls := [] } =
        ({ config := [("HeartbeatInterval", 60)], sentCalls := [] },
          some PyErr.keyError) := by
  refine ⟨?_, ?_, ?_⟩ <;> decide

/-- A central state with one registered peer on socket 7, one other peer on
socket 8, and one outstanding call X, used to probe the connection-close
handler. -/
def closeProbe : CentralState :=
  { connectedChargingPoints := [("cp1", 7), ("cp2", 8)],
    pendingRequests := [("X", 0)],
    defaultHeartbeatInterval := 20 }

/-- C2, counterexample. After the connection on socket 7 closes, its
registry entry is gone (the close handler did run), yet the id X pending
call is still registered: it was not resolved with a connection-closed
failure, contradicting the claim that every pending call is resolved when
the connection closes. -/
theorem c2_counterexample :
    dictGet (handleConnectionClosed 7 closeProbe).pendingRequests "X" =
        some 0 ∧
      (handleConnectionClosed 7 closeProbe).connectedChargingPoints =
        [("cp2", 8)] := by
  exact ⟨rfl, rfl⟩

/-- C2, amended. When a connection closes, the central side only scans the
peer registry and deletes the first entry whose stored session equals the
closed connection: the pending-requests map is untouched (no pending call is
resolved), entries bound to other sessions keep their membership, a registry
without a matching entry is unchanged, and when a matching entry exists the
number of matching entries drops by exactly one. -/
theorem c2_close_cleans_registry_only (st : CentralState) (ws : Nat) :
    (handleConnectionClosed ws st).pendingRequests = st.pendingRequests ∧
      (∀ k s, s ≠ ws →
        ((k, s) ∈ (handleConnectionClosed ws st).connectedChargingPoints ↔
          (k, s) ∈ st.connectedChargingPoints)) ∧
      (st.connectedChargingPoints.countP (fun kv => kv.2 == ws) = 0 →
        (handleConnectionClosed ws st).connectedChargingPoints =
          st.connectedChargingPoints) ∧
      (0 < st.connectedChargingPoints.countP (fun kv => kv.2 == ws) →
        (handleConnectionClosed ws st).connectedChargingPoints.countP
            (fun kv => kv.2 == ws) =
          st.connectedChargingPoints.countP (fun kv => kv.2 == ws) - 1) := by
  refine ⟨rfl, ?_, ?_, ?_⟩
  · intro k s hs
    exact mem_removeFirstByValue_iff st.connectedChargingPoints ws k s hs
  · intro h0
    show removeFirstByValue st.connectedChargingPoints ws =
      st.connectedChargingPoints
    exact removeFirstByValue_of_countP_zero st.connectedChargingPoints ws h0
  · intro hpos
    exact countP_removeFirstByValue st.connectedChargingPoints ws hpos

/-- C2, witness for the amended theorem at the probe state: the pending call
survives the close, the other peer's entry survives, and the matching-entry
count drops from one to zero. -/
theorem c2_close_cleans_registry_only_witness :
    (handleConnectionClosed 7 closeProbe).pendingRequests =
        closeProbe.pendingRequests ∧
      (("cp2", 8) ∈ (handleConnectionClosed 7 closeProbe).connectedChargingPoints ↔
        ("cp2", 8) ∈ closeProbe.connectedChargingPoints) ∧
      (handleConnectionClosed 7 closeProbe).connectedChargingPoints.countP
          (fun kv => kv.2 == 7) =
        closeProbe.connectedChargingPoints.countP (fun kv => kv.2 == 7) - 1 :=
  ⟨(c2_close_cleans_registry_only closeProbe 7).1,
   (c2_close_cleans_registry_only closeProbe 7).2.1 "cp2" 8 (by decide),
   (c2_close_cleans_registry_only closeProbe 7).2.2.2 (by decide)⟩

/-- The interval schedule of the scenario in claim C3: the configuration
store holds HeartbeatInterval 5 at the checks made after 0 and 1 elapsed
seconds of the sleep, and holds 1 from the check after 2 elapsed seconds on
(the ChangeConfiguration landed mid-sleep). -/
def cfgFiveThenOne : Nat → Int := fun t => if t < 2 then 5 else 1

/-- C3, counterexample. The sleep loop re-reads config["HeartbeatInterval"]
at every one-second check, not only at the start of the sleep: with the
interval changed from 5 to 1 after 2 elapsed seconds, the loop exits after 2
seconds, not after the claimed full original 5 seconds. -/
theorem c3_counterexample :
    sleepLoopSteps cfgFiveThenOne 10 0 = some 2 ∧
      sleepLoopSteps cfgFiveThenOne 10 0 ≠ some 5 := by
  exact ⟨by decide, by decide⟩

/-- C3, amended. The heartbeat sleep loop reads the configured interval
before every one-second sleep step, so a configuration change takes effect
at the next one-second check of the in-progress sleep: the loop exits at the
first elapsed-seconds count that is at least the interval value configured
at that moment, and before that every check saw the elapsed count still
below the then-current interval. In the claim's 5-changed-to-1 scenario the
next Heartbeat is sent after 2 seconds, not after the full 5. -/
theorem c3_interval_reread_each_second (cfg : Nat → Int) (fuel n : Nat)
    (h : sleepLoopSteps cfg fuel 0 = some n) :
    ¬((n : Int) < cfg n) ∧ ∀ u, u < n → (u : Int) < cfg u := by
  obtain ⟨-, h2, h3⟩ := sleepLoopSteps_first_reach cfg fuel 0 n h
  exact ⟨h2, fun u hu => h3 u (Nat.zero_le u) hu⟩

/-- C3, witness for the amended theorem on the 5-changed-to-1 schedule: the
loop exits at 2 because the check after 2 seconds sees the new interval 1,
while the check after 1 second still saw 1 below the old interval 5. -/
theorem c3_interval_reread_each_second_witness :
    ¬((2 : Int) < cfgFiveThenOne 2) ∧ (1 : Int) < cfgFiveThenOne 1 :=
  ⟨(c3_interval_reread_each_second cfgFiveThenOne 10 2 (by decide)).1,
   (c3_interval_reread_each_second cfgFiveThenOne 10 2 (by decide)).2 1
     (by decide)⟩

/-- C4. Point-side ChangeConfiguration: when the key is present in the
configuration store, the payload passes validation and the value coerces to
an integer, the stored value is updated in place to that integer (same key
set, other keys untouched) and the reply carries status Accepted; when the
key is absent from the store, the state is returned unchanged and the reply
carries status Rejected. -/
theorem c4_change_configuration (validate : PCallPayload → Bool)
    (messageId k : String) (v : PVal) (st : PointState) :
    (∀ n : Int, validate { key := some (.pstr k), value := some v } = true →
      dictContains st.config k = true → pyInt v = Except.ok n →
      dictGet (processChangeConfiguration validate messageId
          { key := some (.pstr k), value := some v } st).1.config k =
          some n ∧
        (processChangeConfiguration validate messageId
            { key := some (.pstr k), value := some v } st).1.config.map
            Prod.fst = st.config.map Prod.fst ∧
        (∀ k', k' ≠ k →
          dictGet (processChangeConfiguration validate messageId
              { key := some (.pstr k), value := some v } st).1.config k' =
            dictGet st.config k') ∧
        (processChangeConfiguration validate messageId
            { key := some (.pstr k), value := some v } st).2 =
          Except.ok ⟨MessageType.CALL_RESULT, messageId,
            PResp.status "Accepted"⟩) ∧
    (dictContains st.config k = false →
      processChangeConfiguration validate messageId
          { key := some (.pstr k), value := some v } st =
        (st, Except.ok ⟨MessageType.CALL_ERROR, messageId,
          PResp.status "Rejected"⟩)) := by
  constructor
  · intro n hv hc hn
    have hred : processChangeConfiguration validate messageId
        { key := some (.pstr k), value := some v } st =
      ({ st with config := dictSet st.config k n },
        Except.ok ⟨MessageType.CALL_RESULT, messageId,
          PResp.status "Accepted"⟩) := by
      simp [processChangeConfiguration, hv, hc, hn]
    rw [hred]
    exact ⟨dictGet_dictSet_self st.config k n,
      map_fst_dictSet_of_contains st.config k n hc,
      fun k' hk' => dictGet_dictSet_ne st.config k k' n hk', rfl⟩
  · intro hc
    simp [processChangeConfiguration, hc]

/-- C4, witness at the claim's own inputs: ChangeConfiguration of
HeartbeatInterval to the string value 60 against the initial store yields
the integer 60, and a change of the absent key NoSuchKey leaves the state
unchanged and replies Rejected. -/
theorem c4_change_configuration_witness :
    dictGet (processChangeConfiguration (fun _ => true) "m1"
        { key := some (.pstr "HeartbeatInterval"), value := some (.pstr "60") }
        initPoint).1.config "HeartbeatInterval" = some 60 ∧
      processChangeConfiguration (fun _ => true) "m2"
          { key := some (.pstr "NoSuchKey"), value := some (.pstr "60") }
          initPoint =
        (initPoint, Except.ok ⟨MessageType.CALL_ERROR, "m2",
          PResp.status "Rejected"⟩) :=
  ⟨((c4_change_configuration (fun _ => true) "m1" "HeartbeatInterval"
      (.pstr "60") initPoint).1 60 rfl (by decide) rfl).1,
   (c4_change_configuration (fun _ => true) "m2" "NoSuchKey" (.pstr "60")
      initPoint).2 (by decide)⟩

/-- C5. Point-side GetConfiguration: for any payload that passes validation
and carries a key list, the reply is a CallResult envelope (also when every
key is unknown) whose configurationKey list holds, in request order, each
requested key present in the store with its current value and readonly
False, and whose unknownKey list holds the remaining requested keys. -/
theorem c5_get_configuration (validate : PCallPayload → Bool)
    (messageId : String) (ks : List String) (vo : Option PVal)
    (st : PointState)
    (hv : validate { key := some (.plist ks), value := vo } = true) :
    processGetConfiguration validate messageId
        { key := some (.plist ks), value := vo } st =
      Except.ok ⟨MessageType.CALL_RESULT, messageId,
        PResp.getConf
          (ks.filterMap fun k =>
            (dictGet st.config k).map fun v => ⟨k, false, v⟩)
          (ks.filter fun k => !(dictContains st.config k))⟩ := by
  simp [processGetConfiguration, hv, pyIter, partitionKeys_eq]

/-- C5, witness at the claim's own inputs: requesting HeartbeatInterval and
Nonexistent against the initial store answers with known
HeartbeatInterval 30 (readonly false) and unknown Nonexistent, in a
CallResult envelope. -/
theorem c5_get_configuration_witness :
    processGetConfiguration (fun _ => true) "m3"
        { key := some (.plist ["HeartbeatInterval", "Nonexistent"]) }
        initPoint =
      Except.ok ⟨MessageType.CALL_RESULT, "m3",
        PResp.getConf [⟨"HeartbeatInterval", false, 30⟩] ["Nonexistent"]⟩ :=
  (c5_get_configuration (fun _ => true) "m3"
    ["HeartbeatInterval", "Nonexistent"] none initPoint rfl).trans rfl

/-- C6, counterexample. A BootNotification payload whose self-reported
serial number is the empty string passes the (abstract) validation, yet
after processing, the identity does not appear in the peer registry: the
registration is guarded by Python truthiness of the serial, which the claim
does not account for. The Accepted reply is still sent. -/
theorem c6_counterexample :
    (fun _ : CDict => true) { chargePointSerialNumber := some "" } = true ∧
      dictGet (processBootNotification (fun _ => true) "t0" 7 "m1"
          { chargePointSerialNumber := some "" }
          { connectedChargingPoints := [], pendingRequests := [],
            defaultHeartbeatInterval := 20 }).1.connectedChargingPoints "" =
        none ∧
      (processBootNotification (fun _ => true) "t0" 7 "m1"
          { chargePointSerialNumber := some "" }
          { connectedChargingPoints := [], pendingRequests := [],
            defaultHeartbeatInterval := 20 }).2.1 =
        [(7, ⟨MessageType.CALL_RESULT, "m1",
          CResp.boot ⟨"Accepted", "t0", 20⟩⟩)] :=
  ⟨rfl, rfl, rfl⟩

/-- C6, amended. For every BootNotification payload that passes validation
and whose chargePointSerialNumber is present and nonempty, processing the
handshake upserts that identity into the peer registry mapped to the
handling connection, sends exactly one reply on that same connection with
message type CallResult and payload status Accepted (current time and the
default heartbeat interval), and raises nothing. -/
theorem c6_boot_registration (validate : CDict → Bool) (now : String)
    (ws : Nat) (messageId : String) (payload : CDict) (st : CentralState)
    (cp : String) (hv : validate payload = true)
    (hcp : payload.chargePointSerialNumber = some cp) (hne : cp ≠ "") :
    dictGet (processBootNotification validate now ws messageId payload
        st).1.connectedChargingPoints cp = some ws ∧
      (processBootNotification validate now ws messageId payload st).2.1 =
        [(ws, ⟨MessageType.CALL_RESULT, messageId,
          CResp.boot ⟨"Accepted", now, st.defaultHeartbeatInterval⟩⟩)] ∧
      (processBootNotification validate now ws messageId payload st).2.2 =
        none := by
  simp [processBootNotification, hv, hcp, hne, dictGet_dictSet_self]

/-- C6, witness for the amended theorem: the serial 12345 passing validation
lands in the registry mapped to socket 7. -/
theorem c6_boot_registration_witness :
    dictGet (processBootNotification (fun _ => true) "t1" 7 "m5"
        { chargePointSerialNumber := some "12345" }
        { connectedChargingPoints := [], pendingRequests := [],
          defaultHeartbeatInterval := 20 }).1.connectedChargingPoints
      "12345" = some 7 :=
  (c6_boot_registration (fun _ => true) "t1" 7 "m5"
    { chargePointSerialNumber := some "12345" }
    { connectedChargingPoints := [], pendingRequests := [],
      defaultHeartbeatInterval := 20 } "12345" rfl rfl (by decide)).1

/-- C7, counterexample. On the point role an inbound CallError whose id
matches an outstanding call is not treated as a correlation resolution: the
handler only logs it, the sent-calls entry for the id stays registered and
the state is returned unchanged, contradicting the claim that both roles
remove the pending entry and wake the caller. -/
theorem c7_counterexample :
    handleMessage (fun _ => true) (fun _ => true)
        (.callError "X" { interval := some 60 })
        { config := [("HeartbeatInterval", 30)],
          sentCalls := [("X", "BootNotification")] } =
      ({ config := [("HeartbeatInterval", 30)],
         sentCalls := [("X", "BootNotification")] }, Except.ok none) := rfl

/-- C7, amended. On the central role an inbound CallError is processed
exactly as a CallResult with the same id and payload (so the waiting caller
receives the payload with no error indication): with the id pending and the
pending ids duplicate-free, the future is woken with the payload, the entry
is removed, and no frame is sent. On the point role an inbound CallError is
only logged: the state is unchanged and nothing is resolved. -/
theorem c7_central_error_like_result_point_drops {ρ : Type}
    (validate : CDict → Bool) (now : String) (ws : Nat) (messageId : String)
    (payload : ρ) (st : CentralState) (fut : Nat)
    (hp : dictGet st.pendingRequests messageId = some fut)
    (hnd : (st.pendingRequests.map Prod.fst).Nodup) :
    processMessage validate now ws (.callError messageId payload) st =
        processMessage validate now ws (.callResult messageId payload) st ∧
      (processMessage validate now ws (.callError messageId payload)
          st).2.2 = [(fut, payload)] ∧
      dictGet (processMessage validate now ws (.callError messageId payload)
          st).1.pendingRequests messageId = none ∧
      (processMessage validate now ws (.callError messageId payload)
          st).2.1 = [] ∧
      ∀ (vG vC : PCallPayload → Bool) (mid : String) (pl : PResultPayload)
        (stp : PointState),
        handleMessage vG vC (.callError mid pl) stp = (stp, Except.ok none) := by
  have h1 : (dictPop st.pendingRequests messageId).1 = some fut :=
    (dictPop_fst st.pendingRequests messageId).trans hp
  have h2 : dictGet (dictPop st.pendingRequests messageId).2 messageId =
      none := dictGet_dictPop_self st.pendingRequests messageId hnd
  have hsplit : processCallResultMessage messageId payload st =
      ({ st with
          pendingRequests := (dictPop st.pendingRequests messageId).2 },
        [(fut, payload)]) := by
    unfold processCallResultMessage
    cases hdp : dictPop st.pendingRequests messageId with
    | mk o rest =>
        rw [hdp] at h1
        simp only at h1
        subst h1
        simp
  refine ⟨rfl, ?_, ?_, rfl, fun _ _ _ _ _ => rfl⟩
  · show (processCallResultMessage messageId payload st).2 = [(fut, payload)]
    rw [hsplit]
  · show dictGet
        (processCallResultMessage messageId payload st).1.pendingRequests
        messageId = none
    rw [hsplit]
    exact h2

/-- C8. The claim says that on both roles an inbound Call with an
unsupported action is dropped without raising. The central dispatcher
conforms (second conjunct: no reply, no state change, no exception), but the
point dispatcher only logs the warning and then encodes the never-assigned
local `response`, raising UnboundLocalError — which the listener loop does
not catch, so the loop dies. This theorem evaluates both dispatchers at the
failing input, an inbound Call with action FooBar. -/
theorem c8_point_unknown_action_raises :
    pointProcessCallMessage (fun _ => true) (fun _ => true) "id1" "FooBar" {}
        initPoint = (initPoint, Except.error PyErr.unboundLocal) ∧
      processCallMessage (fun _ => true) "t0" 7 "id1" "FooBar" {}
          { connectedChargingPoints := [], pendingRequests := [],
            defaultHeartbeatInterval := 20 } =
        ({ connectedChargingPoints := [], pendingRequests := [],
           defaultHeartbeatInterval := 20 }, [], none) := ⟨rfl, rfl⟩

/-- C9. The key set of the point's configuration store is invariant: after
any sequence of operations from the constructed state — sending a
BootNotification or Heartbeat call (which registers its id in the sent-calls
dict) and receiving any inbound frame (GetConfiguration,
ChangeConfiguration, call results including matched BootNotification
replies, call errors, unknown actions), under any validator verdicts — the
store's keys are still exactly the singleton HeartbeatInterval fixed at
construction. The second conjunct exercises the handshake path the claim
names: a sent BootNotification whose reply is matched removes the sent-call
entry and overwrites the existing HeartbeatInterval entry in place (30
becomes 60), creating no key. -/
theorem c9_config_keys_invariant (validateGet validateChange :
    PCallPayload → Bool) (evs : List PointEvent) :
    (evs.foldl (pointEventStep validateGet validateChange)
        initPoint).config.map Prod.fst = ["HeartbeatInterval"] ∧
      [PointEvent.sendBoot "m",
          PointEvent.recv (.callResult "m" { interval := some 60 })].foldl
            (pointEventStep validateGet validateChange) initPoint =
        { config := [("HeartbeatInterval", 60)], sentCalls := [] } := by
  constructor
  · suffices h : ∀ st : PointState,
        st.config.map Prod.fst = ["HeartbeatInterval"] →
        (evs.foldl (pointEventStep validateGet validateChange) st).config.map
          Prod.fst = ["HeartbeatInterval"] by
      exact h initPoint rfl
    induction evs with
    | nil => intro st hst; simpa using hst
    | cons ev rest ih =>
        intro st hst
        rw [List.foldl_cons]
        have hmem : "HeartbeatInterval" ∈ st.config.map Prod.fst := by
          rw [hst]; simp
        exact ih _ ((map_fst_config_pointEventStep validateGet validateChange
          st ev hmem).trans hst)
  · rfl

/-- C10. A BootNotification payload failing schema validation makes the
central handler raise before building or sending any reply (the invalid
branch's log line references a local bound only in the valid branch), and
process_message's catch-all swallows the exception: no frame is sent, no
resolution happens, the registry and the pending-requests map are unchanged,
and the message loop continues (the dispatcher returns normally). -/
theorem c10_invalid_boot_swallowed {ρ : Type} (validate : CDict → Bool)
    (now : String) (ws : Nat) (messageId : String) (payload : CDict)
    (st : CentralState) (hv : validate payload = false) :
    processMessage validate now ws
        (CInMsg.call messageId "BootNotification" payload : CInMsg ρ) st =
      (st, [], []) := by
  simp [processMessage, processCallMessage, processBootNotification, hv]

/-- C10, witness: an invalid BootNotification against a central with one
registered peer and one pending call leaves everything as it was and sends
nothing. -/
theorem c10_invalid_boot_swallowed_witness :
    processMessage (fun _ => false) "t0" 7
        (CInMsg.call "m9" "BootNotification" {} : CInMsg Unit)
        { connectedChargingPoints := [("cp", 1)],
          pendingRequests := [("X", 0)], defaultHeartbeatInterval := 20 } =
      ({ connectedChargingPoints := [("cp", 1)],
         pendingRequests := [("X", 0)], defaultHeartbeatInterval := 20 },
        [], []) :=
  c10_invalid_boot_swallowed (fun _ => false) "t0" 7 "m9" {}
    { connectedChargingPoints := [("cp", 1)],
      pendingRequests := [("X", 0)], defaultHeartbeatInterval := 20 } rfl

/-- C7, witness for the amended theorem: with the single pending id X bound
to future 5, an inbound CallError is handled identically to a CallResult,
future 5 is woken with the payload, and the entry for X is removed. -/
theorem c7_central_error_like_result_point_drops_witness :
    processMessage (fun _ => true) "t0" 7 (CInMsg.callError "X" (0 : Nat))
        { connectedChargingPoints := [], pendingRequests := [("X", 5)],
          defaultHeartbeatInterval := 20 } =
      processMessage (fun _ => true) "t0" 7 (CInMsg.callResult "X" (0 : Nat))
        { connectedChargingPoints := [], pendingRequests := [("X", 5)],
          defaultHeartbeatInterval := 20 } ∧
    (processMessage (fun _ => true) "t0" 7 (CInMsg.callError "X" (0 : Nat))
        { connectedChargingPoints := [], pendingRequests := [("X", 5)],
          defaultHeartbeatInterval := 20 }).2.2 = [(5, (0 : Nat))] ∧
    dictGet (processMessage (fun _ => true) "t0" 7
        (CInMsg.callError "X" (0 : Nat))
        { connectedChargingPoints := [], pendingRequests := [("X", 5)],
          defaultHeartbeatInterval := 20 }).1.pendingRequests "X" = none :=
  ⟨(c7_central_error_like_result_point_drops (fun _ => true) "t0" 7 "X" 0
      { connectedChargingPoints := [], pendingRequests := [("X", 5)],
        defaultHeartbeatInterval := 20 } 5 rfl (by decide)).1,
   (c7_central_error_like_result_point_drops (fun _ => true) "t0" 7 "X" 0
      { connectedChargingPoints := [], pendingRequests := [("X", 5)],
        defaultHeartbeatInterval := 20 } 5 rfl (by decide)).2.1,
   (c7_central_error_like_result_point_drops (fun _ => true) "t0" 7 "X" 0
      { connectedChargingPoints := [], pendingRequests := [("X", 5)],
        defaultHeartbeatInterval := 20 } 5 rfl (by decide)).2.2.1⟩
